import Mathlib

/-!
Verification of the Vision3D Structure-from-Motion pipeline
(client-side photogrammetry code, OpenCV-backed path and the simplified
legacy path).

Conventions of the embedding:
* JavaScript numbers that only ever flow through comparisons, ratios and
  rational arithmetic (feature coordinates, descriptor distances) are
  modelled as rationals.
* Geometric quantities that pass through square roots (reprojection
  errors, vector norms) are modelled as reals.
* External OpenCV entry points (findEssentialMat, recoverPose,
  triangulatePoints) are modelled as parameters of the pipeline: the
  embedding fixes only what the repository code does with their results.
* Math.random() streams are modelled as explicit function parameters.
-/

/-- A detected keypoint, from the ORB extraction path
(interface FeaturePoint in the OpenCV photogrammetry module).
The optional angle and octave fields are not used by any verified code
path and are omitted. -/
structure FeaturePoint where
  x : ℚ
  y : ℚ
  response : ℚ
deriving DecidableEq

/-- Per-image feature set (interface ImageFeatures); the OpenCV descriptor
and keypoint handles are external resources and are not modelled. -/
structure ImageFeatures where
  features : List FeaturePoint
  imageIndex : ℕ
deriving DecidableEq

/-- One OpenCV DMatch: indices of the matched descriptors and their
Hamming distance (a JavaScript number, modelled as a rational). -/
structure DMatch where
  queryIdx : ℕ
  trainIdx : ℕ
  distance : ℚ
deriving DecidableEq

/-- interface MatchedFeature of the OpenCV photogrammetry module. -/
structure MatchedFeature where
  point1 : FeaturePoint
  point2 : FeaturePoint
  image1Index : ℕ
  image2Index : ℕ
  confidence : ℚ
  queryIdx : ℕ
  trainIdx : ℕ
deriving DecidableEq

/-- The Lowe filter of robustFeatureMatching: from the knnMatch result
(one list of candidate matches per query descriptor) keep, in order, the
best candidate of every entry that has at least two candidates and whose
best distance is below 0.75 times the second distance and below the
absolute cutoff 40. -/
def loweGoodMatches (knn : List (List DMatch)) : List DMatch :=
  knn.foldr
    (fun pair acc =>
      match pair with
      | m1 :: m2 :: _ =>
          if m1.distance < 0.75 * m2.distance ∧ m1.distance < 40 then
            m1 :: acc
          else acc
      | _ => acc)
    []

/-- The symmetric cross-check of robustFeatureMatching: keep a forward
match when some entry of the backward knnMatch result has a first
candidate that maps the matched train descriptor back to the query
descriptor. -/
def crossCheckMatches (good : List DMatch) (backKnn : List (List DMatch)) :
    List DMatch :=
  good.filter
    (fun m =>
      backKnn.any (fun pair =>
        pair.head?.any (fun bm =>
          bm.queryIdx == m.trainIdx && bm.trainIdx == m.queryIdx)))

/-- The sort used by robustFeatureMatching:
finalMatches.sort by ascending distance (Array.prototype.sort is stable,
modelled by a stable merge sort). -/
def sortByDistance (l : List DMatch) : List DMatch :=
  l.mergeSort (fun a b => a.distance ≤ b.distance)

/-- The final per-pair selection of robustFeatureMatching: the
cross-checked matches replace the one-directional matches when more than
20 of them survive; the chosen list is sorted by ascending distance and
cut to the best 200. -/
def perPairFinal (good crossChecked : List DMatch) : List DMatch :=
  let finalMatches := if 20 < crossChecked.length then crossChecked else good
  (sortByDistance finalMatches).take 200

/-- Conversion of a per-pair DMatch list to MatchedFeature records; a
match is kept only when both referenced feature indices exist
(the if point1 and point2 guard). -/
def convertMatches (f1 f2 : List FeaturePoint) (i j : ℕ)
    (best : List DMatch) : List MatchedFeature :=
  best.filterMap
    (fun m =>
      match f1[m.queryIdx]?, f2[m.trainIdx]? with
      | some p1, some p2 =>
          some { point1 := p1, point2 := p2, image1Index := i,
                 image2Index := j, confidence := 1 / (1 + m.distance),
                 queryIdx := m.queryIdx, trainIdx := m.trainIdx }
      | _, _ => none)

/-- The whole per-pair body of robustFeatureMatching, given the forward
and backward knnMatch tables delivered by the OpenCV matcher. -/
def matchPair (f1 f2 : List FeaturePoint) (i j : ℕ)
    (knnF knnB : List (List DMatch)) : List MatchedFeature :=
  let good := loweGoodMatches knnF
  let crossChecked := crossCheckMatches good knnB
  convertMatches f1 f2 i j (perPairFinal good crossChecked)

/-- robustFeatureMatching: the double loop over ordered image pairs
i below j, accumulating the per-pair matches.  The knnMatch results of
the external BFMatcher are a parameter, indexed by the image pair. -/
def robustFeatureMatching (imageFeatures : List ImageFeatures)
    (knn : ℕ → ℕ → List (List DMatch)) : List MatchedFeature :=
  imageFeatures.enum.flatMap
    (fun p =>
      (imageFeatures.enum.drop (p.1 + 1)).flatMap
        (fun q => matchPair p.2.features q.2.features p.1 q.1
                    (knn p.1 q.1) (knn q.1 p.1)))

/-- The grouping key of findBestInitialPair; the source builds the string
"i1-i2" and later parses it back, which round-trips exactly, so the key
is modelled as the index pair itself. -/
def pairKey (m : MatchedFeature) : ℕ × ℕ := (m.image1Index, m.image2Index)

/-- One step of the grouping loop of findBestInitialPair: append the
match to the entry of its key, or create a fresh entry at the end
(JavaScript Map iteration follows insertion order). -/
def addToGroups (gs : List ((ℕ × ℕ) × List MatchedFeature))
    (m : MatchedFeature) : List ((ℕ × ℕ) × List MatchedFeature) :=
  if gs.any (fun e => e.1 == pairKey m) then
    gs.map (fun e => if e.1 = pairKey m then (e.1, e.2 ++ [m]) else e)
  else gs ++ [(pairKey m, [m])]

/-- The pairCounts map of findBestInitialPair, in insertion order. -/
def groupPairs (ms : List MatchedFeature) :
    List ((ℕ × ℕ) × List MatchedFeature) :=
  ms.foldl addToGroups []

/-- The bestPair record produced by findBestInitialPair; the field
holding the matches of the pair is named pairMatches because the source
name is a reserved word of Lean. -/
structure BestPair where
  image1 : ℕ
  image2 : ℕ
  pairMatches : List MatchedFeature
deriving DecidableEq

/-- One step of the selection loop of findBestInitialPair: an entry
replaces the current best when its match count strictly exceeds the
running maximum and reaches the minimum of 50. -/
def selStep (acc : Option BestPair × ℕ)
    (e : (ℕ × ℕ) × List MatchedFeature) : Option BestPair × ℕ :=
  if acc.2 < e.2.length ∧ 50 ≤ e.2.length then
    (some ⟨e.1.1, e.1.2, e.2⟩, e.2.length)
  else acc

/-- findBestInitialPair: group the matches by image pair and scan the
groups for the pair with the most matches, subject to the minimum of
50. -/
def findBestInitialPair (ms : List MatchedFeature) : Option BestPair :=
  ((groupPairs ms).foldl selStep (none, 0)).1

noncomputable section

/-- three.js Vector3 (named Vec3 here to avoid clashing with a Mathlib name). -/
structure Vec3 where
  x : ℝ
  y : ℝ
  z : ℝ

/-- Componentwise subtraction, Vec3.sub of three.js. -/
def Vec3.sub (a b : Vec3) : Vec3 := ⟨a.x - b.x, a.y - b.y, a.z - b.z⟩

/-- Componentwise addition, Vec3.add of three.js. -/
def Vec3.add (a b : Vec3) : Vec3 := ⟨a.x + b.x, a.y + b.y, a.z + b.z⟩

/-- Vec3.negate of three.js. -/
def Vec3.neg (a : Vec3) : Vec3 := ⟨-a.x, -a.y, -a.z⟩

/-- Vec3.length of three.js: the Euclidean norm. -/
def Vec3.norm (a : Vec3) : ℝ := Real.sqrt (a.x ^ 2 + a.y ^ 2 + a.z ^ 2)

/-- three.js Matrix3: nine elements stored in column-major order, exactly
as the elements array of the library. -/
structure Matrix3 where
  elements : Fin 9 → ℝ

/-- Matrix3.set of three.js: arguments are given row-major and stored
column-major. -/
def Matrix3.set (n11 n12 n13 n21 n22 n23 n31 n32 n33 : ℝ) : Matrix3 :=
  ⟨fun i => match i with
    | 0 => n11 | 1 => n21 | 2 => n31
    | 3 => n12 | 4 => n22 | 5 => n32
    | 6 => n13 | 7 => n23 | 8 => n33⟩

/-- Matrix3.identity of three.js. -/
def Matrix3.identity : Matrix3 :=
  ⟨fun i => match i with
    | 0 => 1 | 1 => 0 | 2 => 0
    | 3 => 0 | 4 => 1 | 5 => 0
    | 6 => 0 | 7 => 0 | 8 => 1⟩

/-- Matrix3.fromArray of three.js: the array is copied into the elements
slots verbatim, hence read in column-major order. -/
def Matrix3.fromArray (a : Fin 9 → ℝ) : Matrix3 := ⟨a⟩

/-- Matrix3.transpose of three.js (as a pure function): swaps the
off-diagonal element slots 1 and 3, 2 and 6, 5 and 7. -/
def Matrix3.transpose (m : Matrix3) : Matrix3 :=
  ⟨fun i => match i with
    | 0 => m.elements 0 | 1 => m.elements 3 | 2 => m.elements 6
    | 3 => m.elements 1 | 4 => m.elements 4 | 5 => m.elements 7
    | 6 => m.elements 2 | 7 => m.elements 5 | 8 => m.elements 8⟩

/-- Vec3.applyMatrix3 of three.js: multiplication by the matrix whose
columns are the element triples. -/
def Vec3.applyMatrix3 (v : Vec3) (m : Matrix3) : Vec3 :=
  ⟨m.elements 0 * v.x + m.elements 3 * v.y + m.elements 6 * v.z,
   m.elements 1 * v.x + m.elements 4 * v.y + m.elements 7 * v.z,
   m.elements 2 * v.x + m.elements 5 * v.y + m.elements 8 * v.z⟩

/-- three.js Color. -/
structure Color where
  r : ℝ
  g : ℝ
  b : ℝ

/-- interface CameraPose of the OpenCV photogrammetry module; the unused
placeholder projectionMatrix (always a fresh Matrix4) is not modelled. -/
structure CameraPose where
  position : Vec3
  rotation : Matrix3
  translation : Vec3
  intrinsicMatrix : Matrix3
  isValid : Bool
  reprojectionError : ℝ

/-- interface Point3D of the OpenCV photogrammetry module. -/
structure Point3D where
  position : Vec3
  color : Color
  confidence : ℝ
  reprojectionError : ℝ
  viewCount : ℕ

/-- projectPoint: transform into the camera frame and apply the pinhole
model, reading fx, fy at element slots 0 and 4 and the principal point at
slots 2 and 5 of the intrinsics, exactly as the source does (real
division is total in the model where JavaScript would produce an
infinity for a zero depth). -/
def projectPoint (point3D : Vec3) (camera : CameraPose)
    (intrinsics : Matrix3) : ℝ × ℝ :=
  let relativePoint := point3D.sub camera.position
  let camPoint := relativePoint.applyMatrix3 camera.rotation
  let fx := intrinsics.elements 0
  let fy := intrinsics.elements 4
  let cx := intrinsics.elements 2
  let cy := intrinsics.elements 5
  (camPoint.x / camPoint.z * fx + cx, camPoint.y / camPoint.z * fy + cy)

/-- calculateReprojectionError: average of the two pixel distances
between the projections of the point and its matched locations. -/
def calculateReprojectionError (point3D : Vec3) (m : MatchedFeature)
    (camera1 camera2 : CameraPose) (intrinsics : Matrix3) : ℝ :=
  let proj1 := projectPoint point3D camera1 intrinsics
  let error1 := Real.sqrt ((proj1.1 - (m.point1.x : ℝ)) ^ 2 +
    (proj1.2 - (m.point1.y : ℝ)) ^ 2)
  let proj2 := projectPoint point3D camera2 intrinsics
  let error2 := Real.sqrt ((proj2.1 - (m.point2.x : ℝ)) ^ 2 +
    (proj2.2 - (m.point2.y : ℝ)) ^ 2)
  (error1 + error2) / 2

end

noncomputable section

/-- A 3 by 3 OpenCV matrix of doubles. -/
def Mat3 : Type := Fin 3 → Fin 3 → ℝ

/-- A 3 by 4 OpenCV matrix of doubles (projection matrix shape). -/
def Mat34 : Type := Fin 3 → Fin 4 → ℝ

/-- Row-major flat index of a 3 by 3 matrix entry, the layout of the
data64F buffer of an OpenCV Mat. -/
def rowMajorIdx (r c : Fin 3) : Fin 9 := ⟨3 * r.1 + c.1, by omega⟩

/-- Reading a row-major double buffer as a 3 by 3 matrix (cv.matFromArray
with 3 rows and 3 columns). -/
def cvMatOfArr (a : Fin 9 → ℝ) : Mat3 := fun r c => a (rowMajorIdx r c)

/-- cv.hconcat of a 3 by 3 matrix and a 3 by 1 column. -/
def hconcat (m : Mat3) (t : Fin 3 → ℝ) : Mat34 :=
  fun r c => if h : c.1 < 3 then m r ⟨c.1, h⟩ else t r

/-- cv.gemm with alpha one and beta zero: the plain matrix product. -/
def gemm (a : Mat3) (b : Mat34) : Mat34 :=
  fun r c => ∑ k : Fin 3, a r k * b k c

/-- cv.Mat.eye(3, 3). -/
def mat3Eye : Mat3 := fun r c => if r = c then 1 else 0

/-- cv.Mat.zeros(3, 1). -/
def vec3Zeros : Fin 3 → ℝ := fun _ => 0

/-- The result handle of cv.findEssentialMat; the repository code only
ever inspects its row count, so only that is modelled. -/
structure EMat where
  rows : ℕ

/-- The estimator selector passed to cv.findEssentialMat. -/
inductive EstimationMethod where
  | ransac
  | lmeds
deriving DecidableEq

/-- The robust-estimation arguments of the cv.findEssentialMat call:
method, probability (confidence) and pixel threshold. -/
structure RansacArgs where
  method : EstimationMethod
  prob : ℚ
  threshold : ℚ
deriving DecidableEq

/-- The literal arguments the source passes to cv.findEssentialMat:
cv.RANSAC, 0.999, 1.0. -/
def essentialRansacArgs : RansacArgs :=
  { method := .ransac, prob := 0.999, threshold := 1.0 }

/-- The outputs of cv.recoverPose: the inlier count it returns, the
row-major data of the recovered rotation, the recovered translation and
the inlier mask. -/
structure RecoverPoseResult where
  inlierCount : ℕ
  rotData : Fin 9 → ℝ
  tData : Fin 3 → ℝ
  mask : List Bool

/-- The external OpenCV entry points consumed by the reconstruction,
plus the Math.random() stream used for synthetic point colors (indexed
by consecutive draws of the triangulation loop). -/
structure CVEnv where
  findEssentialMat : List (ℚ × ℚ) → List (ℚ × ℚ) → Mat3 → RansacArgs → EMat
  recoverPose : EMat → List (ℚ × ℚ) → List (ℚ × ℚ) → Mat3 → RecoverPoseResult
  triangulatePoints : Mat34 → Mat34 → List ℚ → List ℚ → List (ℝ × ℝ × ℝ × ℝ)
  rand : ℕ → ℝ

/-- triangulatePointsOpenCV: filter the inlier matches through the mask,
bail out when fewer than five survive (the source compares the flattened
coordinate list, two entries per match, against 10), hand the projection
matrices P1 = K[I|0] and P2 = K[R|t] to the external triangulation, and
validate every returned homogeneous point: nondegenerate homogeneous
weight, positive depth in both camera frames, reprojection error under
2 pixels.  Accepted points carry confidence 1 - error / 2, a synthetic
color and view count 2.  The source walks the triangulated columns and
the inlier matches by a shared index, modelled by zipping the two
lists. -/
def triangulatePointsOpenCV (env : CVEnv) (ms : List MatchedFeature)
    (camera1 camera2 : CameraPose) (intrinsics : Matrix3)
    (mask : List Bool) (K : Mat3) (R : Mat3) (t : Fin 3 → ℝ) :
    List Point3D :=
  let P1 := gemm K (hconcat mat3Eye vec3Zeros)
  let P2 := gemm K (hconcat R t)
  let inlierMatches := (ms.zip mask).filterMap
    (fun p => if p.2 then some p.1 else none)
  let inlierPts1 := inlierMatches.flatMap (fun m => [m.point1.x, m.point1.y])
  let inlierPts2 := inlierMatches.flatMap (fun m => [m.point2.x, m.point2.y])
  if inlierPts1.length < 10 then []
  else
    let points4D := env.triangulatePoints P1 P2 inlierPts1 inlierPts2
    ((points4D.zip inlierMatches).enum).filterMap
      (fun e =>
        match e with
        | (i, (X, Y, Z, W), m) =>
          if |W| > 1e-6 then
            let point3D : Vec3 := ⟨X / W, Y / W, Z / W⟩
            let depthCam1 := point3D.z
            let pointCam2 :=
              (point3D.applyMatrix3 camera2.rotation).add camera2.translation
            let depthCam2 := pointCam2.z
            if depthCam1 > 0 ∧ depthCam2 > 0 then
              let reprojError :=
                calculateReprojectionError point3D m camera1 camera2 intrinsics
              if reprojError < 2 then
                some { position := point3D,
                       color := ⟨0.7 + env.rand (2 * i) * 0.3,
                                 0.7 + env.rand (2 * i + 1) * 0.3, 0.9⟩,
                       confidence := 1 - reprojError / 2,
                       reprojectionError := reprojError,
                       viewCount := 2 }
              else none
            else none
          else none)

/-- The result shape of performTwoViewReconstruction. -/
structure TwoViewResult where
  success : Bool
  points3D : List Point3D
  cameras : List CameraPose

/-- The reading of the intrinsics into the OpenCV camera matrix: the
source copies the elements array of the three.js matrix row by row,
although that array is stored column-major, so the OpenCV matrix is the
transpose of the intended calibration matrix.  The embedding reproduces
the copy verbatim. -/
def cvCameraMatrix (intrinsics : Matrix3) : Mat3 :=
  fun r c => intrinsics.elements (rowMajorIdx r c)

/-- performTwoViewReconstruction: estimate the essential matrix with
RANSAC (confidence 0.999, threshold 1.0), abort on an empty result or
fewer than 50 recovered inliers, assemble camera 1 as the identity pose
at the origin and camera 2 from the recovered rotation and translation
(position computed as in the source: the negated translation passed
through applyMatrix3 of the transposed fromArray matrix), then
triangulate. -/
def performTwoViewReconstruction (env : CVEnv) (ms : List MatchedFeature)
    (intrinsics : Matrix3) : TwoViewResult :=
  let points1 := ms.map (fun m => (m.point1.x, m.point1.y))
  let points2 := ms.map (fun m => (m.point2.x, m.point2.y))
  let K := cvCameraMatrix intrinsics
  let essentialMatrix := env.findEssentialMat points1 points2 K essentialRansacArgs
  if essentialMatrix.rows = 0 then ⟨false, [], []⟩
  else
    let rp := env.recoverPose essentialMatrix points1 points2 K
    if rp.inlierCount < 50 then ⟨false, [], []⟩
    else
      let camera1 : CameraPose :=
        { position := ⟨0, 0, 0⟩, rotation := Matrix3.identity,
          translation := ⟨0, 0, 0⟩, intrinsicMatrix := intrinsics,
          isValid := true, reprojectionError := 0 }
      let tVec : Vec3 := ⟨rp.tData 0, rp.tData 1, rp.tData 2⟩
      let RMat := Matrix3.fromArray rp.rotData
      let RTMat := RMat.transpose
      let camera2Position := (tVec.neg).applyMatrix3 RTMat
      let camera2 : CameraPose :=
        { position := camera2Position, rotation := RMat,
          translation := tVec, intrinsicMatrix := intrinsics,
          isValid := true, reprojectionError := 0 }
      let points3D := triangulatePointsOpenCV env ms camera1 camera2
        intrinsics rp.mask K (cvMatOfArr rp.rotData) rp.tData
      ⟨true, points3D, [camera1, camera2]⟩

end

noncomputable section

/-- interface ReconstructionResult of the OpenCV photogrammetry module. -/
structure ReconstructionResult where
  points3D : List Point3D
  cameras : List CameraPose
  success : Bool
  errorMessage : Option String

/-- The failure message of the total-match-count guard. -/
def insufficientMsg : String := "Insufficient feature matches for reconstruction"

/-- The failure message of a failed pair selection. -/
def noPairMsg : String := "Could not find suitable image pair for initialization"

/-- The failure message of a failed two-view stage. -/
def twoViewFailedMsg : String := "Two-view reconstruction failed"

/-- performSfMReconstruction: guard on at least 50 matches in total,
select the seed pair, run the two-view reconstruction, and wrap the
outcome.  The imageFeatures argument is carried but, as in the source,
never read on any path that decides the result. -/
def performSfMReconstruction (env : CVEnv)
    (imageFeatures : List ImageFeatures) (ms : List MatchedFeature)
    (intrinsics : Matrix3) : ReconstructionResult :=
  if ms.length < 50 then ⟨[], [], false, some insufficientMsg⟩
  else
    match findBestInitialPair ms with
    | none => ⟨[], [], false, some noPairMsg⟩
    | some initPair =>
      let twoViewResult :=
        performTwoViewReconstruction env initPair.pairMatches intrinsics
      if twoViewResult.success then
        ⟨twoViewResult.points3D, twoViewResult.cameras, true, none⟩
      else ⟨[], [], false, some twoViewFailedMsg⟩

/-- interface ProcessedImage of the store (the original File handle is
not modelled). -/
structure ProcessedImage where
  processed : String
  success : Bool

/-- A three.js BufferGeometry, reduced to the three attributes the
repository ever sets: the position attribute, the color attribute and
the index. -/
structure BufferGeometry where
  position : List ℝ
  color : List ℝ
  index : List ℕ

/-- The three materials the repository constructs; their style parameters
are irrelevant to every claim and are not modelled. -/
inductive MaterialKind where
  | pointsMaterial
  | meshPhongMaterial
  | meshLambertMaterial
deriving DecidableEq

/-- interface Generated3DModel of the store: geometry, material, the
flat vertex buffer, the face index buffer, and the optional source image
count. -/
structure Generated3DModel where
  geometry : BufferGeometry
  material : MaterialKind
  vertices : List ℝ
  faces : List ℕ
  sourceImageCount : Option ℕ

/-- Modelled from the external three.js library: the position buffer of
THREE.BoxGeometry(1, 1, 1).  The constructor builds one plane per cube
side (order px, nx, py, ny, pz, nz), each with four distinct corner
vertices, hence 24 vertices and 72 floats. -/
def boxGeometryPositions : List ℝ :=
  [ 0.5,  0.5,  0.5,   0.5,  0.5, -0.5,   0.5, -0.5,  0.5,   0.5, -0.5, -0.5,
   -0.5,  0.5, -0.5,  -0.5,  0.5,  0.5,  -0.5, -0.5, -0.5,  -0.5, -0.5,  0.5,
   -0.5,  0.5, -0.5,   0.5,  0.5, -0.5,  -0.5,  0.5,  0.5,   0.5,  0.5,  0.5,
   -0.5, -0.5,  0.5,   0.5, -0.5,  0.5,  -0.5, -0.5, -0.5,   0.5, -0.5, -0.5,
   -0.5,  0.5,  0.5,   0.5,  0.5,  0.5,  -0.5, -0.5,  0.5,   0.5, -0.5,  0.5,
    0.5,  0.5, -0.5,  -0.5,  0.5, -0.5,   0.5, -0.5, -0.5,  -0.5, -0.5, -0.5]

/-- Modelled from the external three.js library: the index buffer of
THREE.BoxGeometry(1, 1, 1): two triangles per cube side, with the corner
pattern a, b, d and b, c, d of each plane, 36 indices in total. -/
def boxGeometryIndex : List ℕ :=
  [ 0,  2,  1,   2,  3,  1,   4,  6,  5,   6,  7,  5,
    8, 10,  9,  10, 11,  9,  12, 14, 13,  14, 15, 13,
   16, 18, 17,  18, 19, 17,  20, 22, 21,  22, 23, 21]

/-- createEmptyModel: the fallback unit cube, a THREE.BoxGeometry(1,1,1)
with a phong material; the vertex buffer aliases the position attribute
and the face buffer aliases the geometry index.  No source image count
is set. -/
def createEmptyModel : Generated3DModel :=
  { geometry := ⟨boxGeometryPositions, [], boxGeometryIndex⟩,
    material := .meshPhongMaterial,
    vertices := boxGeometryPositions,
    faces := boxGeometryIndex,
    sourceImageCount := none }

/-- createFallbackModel: logs and returns createEmptyModel, ignoring the
images. -/
def createFallbackModel (processedImages : List ProcessedImage) :
    Generated3DModel :=
  createEmptyModel

/-- generateMeshFromPointCloud: an empty point list falls back to the
placeholder cube; otherwise the point positions and colors are packed
into flat stride-3 buffers, no index is set, and the face buffer is an
empty typed array.  No source image count is set. -/
def generateMeshFromPointCloud (points3D : List Point3D) :
    Generated3DModel :=
  if points3D.length = 0 then createEmptyModel
  else
    let vertices := points3D.flatMap
      (fun p => [p.position.x, p.position.y, p.position.z])
    let colors := points3D.flatMap
      (fun p => [p.color.r, p.color.g, p.color.b])
    { geometry := ⟨vertices, colors, []⟩,
      material := .pointsMaterial,
      vertices := vertices,
      faces := [],
      sourceImageCount := none }

/-- The outcomes of the stage calls preceding the reconstruction inside
the try block of generateModel.  Each stage runs external code
(OpenCV feature extraction and matching, image decoding for the
intrinsics), so its outcome — a value or a thrown exception — is a
parameter of the model. -/
structure PipelineEnv where
  cv : CVEnv
  extractResult : Except String (List ImageFeatures)
  matchResult : Except String (List MatchedFeature)
  intrinsicsResult : Except String Matrix3

/-- generateModel (OpenCV path): run the stages inside one try block;
any thrown exception, and any unsuccessful reconstruction, resolves to
the fallback model; a successful reconstruction is packed by
generateMeshFromPointCloud. -/
def generateModel (processedImages : List ProcessedImage)
    (env : PipelineEnv) : Generated3DModel :=
  match env.extractResult with
  | .error _ => createFallbackModel processedImages
  | .ok imageFeatures =>
    match env.matchResult with
    | .error _ => createFallbackModel processedImages
    | .ok ms =>
      match env.intrinsicsResult with
      | .error _ => createFallbackModel processedImages
      | .ok intrinsics =>
        let reconstruction :=
          performSfMReconstruction env.cv imageFeatures ms intrinsics
        if reconstruction.success then
          generateMeshFromPointCloud reconstruction.points3D
        else createFallbackModel processedImages

end

noncomputable section

/-- interface Point3D of the simplified photogrammetry module
(photogrammetry.ts): no reprojection error or view count. -/
structure SimplePoint3D where
  position : Vec3
  color : Color
  confidence : ℝ

/-- One element of the sortedPoints array of the layered triangulation:
original index, point and distance from the origin. -/
structure IndexedPoint where
  idx : ℕ
  point : SimplePoint3D
  dist : ℝ

/-- The inner loop of one layer of generateDelaunayTriangulation
(photogrammetry.ts): for proper index windows connect each point to its
right, down and diagonal neighbours in the sorted order.  The loop bound
endIdx - layerSize - 1 is signed in the source; natural subtraction
yields the same empty range when it is not positive.  The indexed reads
inside the loop are in range by the loop bound; out-of-range optional
reads model the JavaScript optional chaining. -/
def layerFaces (sorted : List IndexedPoint) (layerSize startIdx endIdx : ℕ) :
    List ℕ :=
  (List.range' startIdx ((endIdx - (layerSize + 1)) - startIdx)).flatMap
    (fun i =>
      let current := ((sorted[i]?).map IndexedPoint.idx).getD 0
      match (sorted[i + 1]?).map IndexedPoint.idx,
            (sorted[i + layerSize]?).map IndexedPoint.idx,
            (sorted[i + layerSize + 1]?).map IndexedPoint.idx with
      | some right, some down, some diag =>
          [current, right, down, right, diag, down]
      | some right, some down, none => [current, right, down]
      | _, _, _ => [])

/-- The radial pass of generateDelaunayTriangulation (photogrammetry.ts).
The bound min(100, n / 10) and the wrapped successor (i + 1) modulo the
bound are JavaScript floating-point values; they are modelled as exact
rationals, with the JavaScript remainder x - y * trunc(x / y) written
with a floor (the operands are nonnegative here, so trunc and floor
agree). -/
def radialFaces (n : ℕ) : List ℚ :=
  let b : ℚ := min 100 ((n : ℚ) / 10)
  ((List.range 100).filter (fun i => 1 ≤ i ∧ (i : ℚ) < b)).flatMap
    (fun i =>
      let next : ℚ := (i + 1 : ℚ) - b * ((⌊(i + 1 : ℚ) / b⌋ : ℤ) : ℚ)
      if next < (n : ℚ) then [0, (i : ℚ), next] else [])

/-- The ToUint32 conversion applied by the Uint32Array constructor to
each pushed face entry; every entry produced here is nonnegative, so
truncation toward zero is a floor. -/
def toUint32 (q : ℚ) : ℕ := (⌊q⌋).toNat % 2 ^ 32

/-- generateDelaunayTriangulation of the simplified module
(photogrammetry.ts): sort the points by distance from the origin
(a stable comparator sort), emit four layers of grid faces, then the
radial pass, and convert everything through the Uint32Array constructor.
Math.floor of Math.sqrt of the quarter length equals the natural square
root of the truncated quarter length. -/
def generateDelaunayTriangulationLayered (points3D : List SimplePoint3D) :
    List ℕ :=
  let sorted := (points3D.enum.map
      (fun p => IndexedPoint.mk p.1 p.2 p.2.position.norm)).mergeSort
    (fun a b => decide (a.dist ≤ b.dist))
  let layerSize := Nat.sqrt (points3D.length / 4)
  let base : List ℕ := (List.range 4).flatMap
    (fun layer =>
      layerFaces sorted layerSize (layer * layerSize * layerSize)
        (min ((layer + 1) * layerSize * layerSize) sorted.length))
  let faces : List ℚ :=
    base.map (fun k => (k : ℚ)) ++ radialFaces points3D.length
  faces.map toUint32

/-- generateMesh of the simplified module (photogrammetry.ts): flat
stride-3 vertex and color buffers, the layered triangulation as index
and face buffer, a lambert material, and the source image count. -/
def generateMesh (points3D : List SimplePoint3D) (sourceImageCount : ℕ) :
    Generated3DModel :=
  let vertices := points3D.flatMap
    (fun p => [p.position.x, p.position.y, p.position.z])
  let colors := points3D.flatMap
    (fun p => [p.color.r, p.color.g, p.color.b])
  let faces := generateDelaunayTriangulationLayered points3D
  { geometry := ⟨vertices, colors, faces⟩,
    material := .meshLambertMaterial,
    vertices := vertices,
    faces := faces,
    sourceImageCount := some sourceImageCount }

end

section Helpers

theorem boxGeometryPositions_length : boxGeometryPositions.length = 72 := rfl

theorem boxGeometryIndex_length : boxGeometryIndex.length = 36 := rfl

theorem generateMeshFromPointCloud_vertices_pos (pts : List Point3D) :
    0 < (generateMeshFromPointCloud pts).vertices.length := by
  cases pts with
  | nil =>
    simp only [generateMeshFromPointCloud, createEmptyModel, List.length_nil]
    decide
  | cons p rest =>
    simp [generateMeshFromPointCloud]

theorem generateMeshFromPointCloud_position_pos (pts : List Point3D) :
    0 < (generateMeshFromPointCloud pts).geometry.position.length := by
  cases pts with
  | nil =>
    simp only [generateMeshFromPointCloud, createEmptyModel, List.length_nil]
    decide
  | cons p rest =>
    simp [generateMeshFromPointCloud]

end Helpers

/-- C1: for every list of input images and every outcome of the external
stages, generateModel returns a model whose vertex buffer (and geometry
position attribute) is nonempty, and any stage exception or unsuccessful
reconstruction resolves to the fallback model. -/
theorem generateModel_always_renderable
    (processedImages : List ProcessedImage) (env : PipelineEnv) :
    0 < (generateModel processedImages env).vertices.length
    ∧ 0 < (generateModel processedImages env).geometry.position.length
    ∧ (∀ e, env.extractResult = .error e →
        generateModel processedImages env = createFallbackModel processedImages)
    ∧ (∀ e, env.matchResult = .error e →
        generateModel processedImages env = createFallbackModel processedImages)
    ∧ (∀ e, env.intrinsicsResult = .error e →
        generateModel processedImages env = createFallbackModel processedImages)
    ∧ (∀ feats ms intr, env.extractResult = .ok feats →
        env.matchResult = .ok ms → env.intrinsicsResult = .ok intr →
        (performSfMReconstruction env.cv feats ms intr).success = false →
        generateModel processedImages env = createFallbackModel processedImages) := by
  obtain ⟨cv, er, mr, ir⟩ := env
  cases er with
  | error e =>
    simp [generateModel, createFallbackModel, createEmptyModel,
      boxGeometryPositions_length]
  | ok feats =>
    cases mr with
    | error e =>
      simp [generateModel, createFallbackModel, createEmptyModel,
        boxGeometryPositions_length]
    | ok ms =>
      cases ir with
      | error e =>
        simp [generateModel, createFallbackModel, createEmptyModel,
          boxGeometryPositions_length]
      | ok intr =>
        by_cases hs : (performSfMReconstruction cv feats ms intr).success = true
        · simp [generateModel, hs, generateMeshFromPointCloud_vertices_pos,
            generateMeshFromPointCloud_position_pos]
        · simp [generateModel, hs, createFallbackModel, createEmptyModel,
            boxGeometryPositions_length]

/-- C1 witness: at a concrete failing extraction stage the model is the
fallback and its vertex buffer is nonempty. -/
theorem generateModel_always_renderable_witness :
    0 < (generateModel []
      ⟨⟨fun _ _ _ _ => ⟨0⟩, fun _ _ _ _ => ⟨0, fun _ => 0, fun _ => 0, []⟩,
        fun _ _ _ _ => [], fun _ => 0⟩,
       .error "decode failure", .ok [], .ok Matrix3.identity⟩).vertices.length
    ∧ generateModel []
      ⟨⟨fun _ _ _ _ => ⟨0⟩, fun _ _ _ _ => ⟨0, fun _ => 0, fun _ => 0, []⟩,
        fun _ _ _ _ => [], fun _ => 0⟩,
       .error "decode failure", .ok [], .ok Matrix3.identity⟩ =
      createFallbackModel [] := by
  refine ⟨(generateModel_always_renderable [] _).1, ?_⟩
  exact (generateModel_always_renderable [] _).2.2.1 "decode failure" rfl

/-- C9: with no surviving triangulated points the point-cloud assembler
returns the placeholder cube, and a pipeline run whose reconstruction
succeeds with zero points hands the caller exactly the fallback model. -/
theorem empty_pointcloud_yields_fallback :
    generateMeshFromPointCloud [] = createEmptyModel
    ∧ ∀ (images : List ProcessedImage) (cv : CVEnv)
        (feats : List ImageFeatures) (ms : List MatchedFeature)
        (intr : Matrix3),
        (performSfMReconstruction cv feats ms intr).success = true →
        (performSfMReconstruction cv feats ms intr).points3D = [] →
        generateModel images ⟨cv, .ok feats, .ok ms, .ok intr⟩ =
          createFallbackModel images := by
  refine ⟨by simp [generateMeshFromPointCloud], ?_⟩
  intro images cv feats ms intr hs hp
  simp [generateModel, hs, hp, generateMeshFromPointCloud,
    createFallbackModel]

/-- A concrete external environment whose essential matrix is nonempty,
whose pose recovery reports 50 inliers with an empty mask, and whose
triangulation returns nothing: the reconstruction succeeds with zero
points. -/
noncomputable def cvEnvZeroPoints : CVEnv :=
  ⟨fun _ _ _ _ => ⟨1⟩, fun _ _ _ _ => ⟨50, fun _ => 0, fun _ => 0, []⟩,
   fun _ _ _ _ => [], fun _ => 0⟩

/-- A match record between images 0 and 1 used to build concrete inputs. -/
def mA : MatchedFeature :=
  ⟨⟨0, 0, 0⟩, ⟨0, 0, 0⟩, 0, 1, 1, 0, 0⟩

/-- A match record between images 0 and 2 used to build concrete inputs. -/
def mB : MatchedFeature :=
  ⟨⟨0, 0, 0⟩, ⟨0, 0, 0⟩, 0, 2, 1, 0, 0⟩

set_option maxRecDepth 20000 in
/-- C9 witness: a concrete run with 50 matches on one pair, a successful
two-view stage and an empty triangulation yields the fallback model. -/
theorem empty_pointcloud_yields_fallback_witness :
    generateModel [] ⟨cvEnvZeroPoints, .ok [], .ok (List.replicate 50 mA),
      .ok Matrix3.identity⟩ = createFallbackModel [] := by
  refine (empty_pointcloud_yields_fallback).2 [] cvEnvZeroPoints []
    (List.replicate 50 mA) Matrix3.identity ?_ ?_
  · rfl
  · rfl

/-- C7: the essential matrix call uses RANSAC with confidence 0.999 and
pixel threshold 1.0; an empty (zero-row) result makes the two-view stage
fail with no points and no cameras, whatever the triangulation backend
would have produced; and a pipeline whose estimator always degenerates
returns the fallback model. -/
theorem essential_ransac_args_and_abort :
    essentialRansacArgs.method = .ransac
    ∧ essentialRansacArgs.prob = 0.999
    ∧ essentialRansacArgs.threshold = 1
    ∧ (∀ (env : CVEnv) (ms : List MatchedFeature) (intr : Matrix3),
        (env.findEssentialMat (ms.map fun m => (m.point1.x, m.point1.y))
          (ms.map fun m => (m.point2.x, m.point2.y))
          (cvCameraMatrix intr) essentialRansacArgs).rows = 0 →
        performTwoViewReconstruction env ms intr = ⟨false, [], []⟩)
    ∧ (∀ (images : List ProcessedImage) (cv : CVEnv)
        (feats : List ImageFeatures) (ms : List MatchedFeature)
        (intr : Matrix3),
        (∀ a b k, (cv.findEssentialMat a b k essentialRansacArgs).rows = 0) →
        generateModel images ⟨cv, .ok feats, .ok ms, .ok intr⟩ =
          createFallbackModel images) := by
  refine ⟨rfl, rfl, by norm_num [essentialRansacArgs], ?_, ?_⟩
  · intro env ms intr h
    simp [performTwoViewReconstruction, h]
  · intro images cv feats ms intr h
    have htv : ∀ ms2 : List MatchedFeature,
        performTwoViewReconstruction cv ms2 intr = ⟨false, [], []⟩ := by
      intro ms2
      simp [performTwoViewReconstruction, h]
    have hr : (performSfMReconstruction cv feats ms intr).success = false := by
      unfold performSfMReconstruction
      by_cases hlen : ms.length < 50
      · simp [hlen]
      · simp only [hlen, if_false]
        cases hfp : findBestInitialPair ms with
        | none => simp
        | some bp => simp [htv bp.pairMatches]
    simp [generateModel, hr]

/-- An external environment whose essential matrix estimation always
returns an empty result. -/
noncomputable def cvEnvDegenerate : CVEnv :=
  ⟨fun _ _ _ _ => ⟨0⟩, fun _ _ _ _ => ⟨0, fun _ => 0, fun _ => 0, []⟩,
   fun _ _ _ _ => [], fun _ => 0⟩

/-- C7 witness: with the always-degenerate estimator, a concrete run
aborts to the fallback model. -/
theorem essential_ransac_args_and_abort_witness :
    generateModel [] ⟨cvEnvDegenerate, .ok [], .ok (List.replicate 50 mA),
      .ok Matrix3.identity⟩ = createFallbackModel [] :=
  (essential_ransac_args_and_abort).2.2.2.2 [] cvEnvDegenerate []
    (List.replicate 50 mA) Matrix3.identity (fun _ _ _ => rfl)

section PairSelection

/-- Invariant of the selection loop of findBestInitialPair over the
already-processed prefix of group entries: while no best pair is chosen
the running maximum is zero and every processed entry is under the
threshold; once a best pair is chosen it is a processed entry of maximal
count, at least 50, strictly greater than every entry before it. -/
def selInv (p : List ((ℕ × ℕ) × List MatchedFeature))
    (acc : Option BestPair × ℕ) : Prop :=
  match acc.1 with
  | none => acc.2 = 0 ∧ ∀ e ∈ p, e.2.length < 50
  | some bp => acc.2 = bp.pairMatches.length ∧ 50 ≤ acc.2
      ∧ (∃ l1 l2, p = l1 ++ ((bp.image1, bp.image2), bp.pairMatches) :: l2
          ∧ ∀ e ∈ l1, e.2.length < acc.2)
      ∧ ∀ e ∈ p, e.2.length ≤ acc.2

theorem selInv_step (p : List ((ℕ × ℕ) × List MatchedFeature))
    (acc : Option BestPair × ℕ) (e : (ℕ × ℕ) × List MatchedFeature)
    (h : selInv p acc) : selInv (p ++ [e]) (selStep acc e) := by
  obtain ⟨b, mx⟩ := acc
  unfold selStep
  by_cases hc : mx < e.2.length ∧ 50 ≤ e.2.length
  · simp only [hc, if_true]
    have hlt : ∀ x ∈ p, x.2.length < e.2.length := by
      intro x hx
      cases b with
      | none =>
        have := h.2 x hx
        omega
      | some bp =>
        have h1 := h.1
        have := h.2.2.2 x hx
        omega
    refine ⟨rfl, hc.2, ⟨p, [], by simp, ?_⟩, ?_⟩
    · intro x hx
      exact hlt x hx
    · intro x hx
      rcases List.mem_append.1 hx with hx | hx
      · exact le_of_lt (hlt x hx)
      · simp only [List.mem_singleton] at hx
        subst hx
        exact le_refl _
  · simp only [hc, if_false]
    cases b with
    | none =>
      refine ⟨h.1, ?_⟩
      intro x hx
      rcases List.mem_append.1 hx with hx | hx
      · exact h.2 x hx
      · simp only [List.mem_singleton] at hx
        subst hx
        have h1 := h.1
        omega
    | some bp =>
      obtain ⟨h1, h2, ⟨l1, l2, hdec, hstrict⟩, hall⟩ := h
      have hle : e.2.length ≤ mx := by omega
      refine ⟨h1, h2, ⟨l1, l2 ++ [e], by rw [hdec]; simp, hstrict⟩, ?_⟩
      intro x hx
      rcases List.mem_append.1 hx with hx | hx
      · exact hall x hx
      · simp only [List.mem_singleton] at hx
        subst hx
        exact hle

theorem selInv_foldl (l p : List ((ℕ × ℕ) × List MatchedFeature))
    (acc : Option BestPair × ℕ) (h : selInv p acc) :
    selInv (p ++ l) (l.foldl selStep acc) := by
  induction l generalizing p acc with
  | nil => simpa using h
  | cons e t ih =>
    have := ih (p ++ [e]) (selStep acc e) (selInv_step p acc e h)
    simpa [List.append_assoc] using this

theorem selInv_groups (ms : List MatchedFeature) :
    selInv (groupPairs ms) ((groupPairs ms).foldl selStep (none, 0)) := by
  have h0 : selInv [] ((none : Option BestPair), 0) := by
    exact ⟨rfl, by intro e he; simp at he⟩
  simpa using selInv_foldl (groupPairs ms) [] (none, 0) h0

/-- Shared consequence: when every group entry is below the threshold,
no pair is selected. -/
theorem findBestInitialPair_eq_none
    (ms : List MatchedFeature)
    (h : ∀ e ∈ groupPairs ms, e.2.length < 50) :
    findBestInitialPair ms = none := by
  have hinv := selInv_groups ms
  unfold findBestInitialPair
  cases hb : ((groupPairs ms).foldl selStep (none, 0)).1 with
  | none => rfl
  | some bp =>
    rw [selInv] at hinv
    rw [hb] at hinv
    obtain ⟨h1, h2, ⟨l1, l2, hdec, -⟩, -⟩ := hinv
    have hmem : ((bp.image1, bp.image2), bp.pairMatches) ∈ groupPairs ms := by
      rw [hdec]
      simp
    have := h _ hmem
    simp only at this
    omega

/-- Shared consequence: when some group entry reaches the threshold, the
selected pair is a group entry of maximal count, strictly above every
entry that precedes it in grouping order. -/
theorem findBestInitialPair_eq_some
    (ms : List MatchedFeature) (e0 : (ℕ × ℕ) × List MatchedFeature)
    (he0 : e0 ∈ groupPairs ms) (h50 : 50 ≤ e0.2.length) :
    ∃ bp l1 l2, findBestInitialPair ms = some bp
      ∧ 50 ≤ bp.pairMatches.length
      ∧ groupPairs ms = l1 ++ ((bp.image1, bp.image2), bp.pairMatches) :: l2
      ∧ (∀ e ∈ groupPairs ms, e.2.length ≤ bp.pairMatches.length)
      ∧ (∀ e ∈ l1, e.2.length < bp.pairMatches.length) := by
  have hinv := selInv_groups ms
  unfold findBestInitialPair
  cases hb : ((groupPairs ms).foldl selStep (none, 0)).1 with
  | none =>
    rw [selInv] at hinv
    rw [hb] at hinv
    have := hinv.2 e0 he0
    omega
  | some bp =>
    rw [selInv] at hinv
    rw [hb] at hinv
    obtain ⟨h1, h2, ⟨l1, l2, hdec, hstrict⟩, hall⟩ := hinv
    refine ⟨bp, l1, l2, rfl, by omega, hdec, ?_, ?_⟩
    · intro e he
      have := hall e he
      omega
    · intro e he
      have := hstrict e he
      omega

end PairSelection

/-- C6: when no image pair reaches 50 correspondences the selector
returns nothing; when some pair reaches 50 the selector returns a pair
of maximal correspondence count, and every group entry encountered
before the selected one has strictly fewer correspondences (ties go to
the first-encountered pair). -/
theorem pairSelector_selects_first_max (ms : List MatchedFeature) :
    ((∀ e ∈ groupPairs ms, e.2.length < 50) →
      findBestInitialPair ms = none)
    ∧ ∀ e0 ∈ groupPairs ms, 50 ≤ e0.2.length →
        ∃ bp l1 l2, findBestInitialPair ms = some bp
          ∧ 50 ≤ bp.pairMatches.length
          ∧ groupPairs ms = l1 ++ ((bp.image1, bp.image2), bp.pairMatches) :: l2
          ∧ (∀ e ∈ groupPairs ms, e.2.length ≤ bp.pairMatches.length)
          ∧ (∀ e ∈ l1, e.2.length < bp.pairMatches.length) :=
  ⟨findBestInitialPair_eq_none ms,
   fun e0 he0 h50 => findBestInitialPair_eq_some ms e0 he0 h50⟩

set_option maxRecDepth 40000 in
/-- C6 witness: on 50 matches of pair (0, 1) followed by one match of
pair (0, 2), the selector picks pair (0, 1) with its 50 matches. -/
theorem pairSelector_selects_first_max_witness :
    ((0, 1), List.replicate 50 mA) ∈ groupPairs (List.replicate 50 mA ++ [mB])
    ∧ ∃ bp l1 l2,
        findBestInitialPair (List.replicate 50 mA ++ [mB]) = some bp
        ∧ 50 ≤ bp.pairMatches.length
        ∧ groupPairs (List.replicate 50 mA ++ [mB]) =
            l1 ++ ((bp.image1, bp.image2), bp.pairMatches) :: l2
        ∧ (∀ e ∈ groupPairs (List.replicate 50 mA ++ [mB]),
            e.2.length ≤ bp.pairMatches.length)
        ∧ (∀ e ∈ l1, e.2.length < bp.pairMatches.length) := by
  refine ⟨?_, ?_⟩
  · decide
  · exact (pairSelector_selects_first_max (List.replicate 50 mA ++ [mB])).2
      ((0, 1), List.replicate 50 mA) (by decide) (by decide)

/-- The correspondence count of the best-connected image pair: the
maximum group size over the grouped match set. -/
def bestPairCount (ms : List MatchedFeature) : ℕ :=
  ((groupPairs ms).map (fun e => e.2.length)).foldr max 0

theorem le_foldr_max (l : List ℕ) (x : ℕ) (hx : x ∈ l) :
    x ≤ l.foldr max 0 := by
  induction l with
  | nil => simp at hx
  | cons a t ih =>
    rcases List.mem_cons.1 hx with h | h
    · subst h
      exact le_max_left _ _
    · exact le_trans (ih h) (le_max_right _ _)

theorem entry_le_bestPairCount (ms : List MatchedFeature)
    (e : (ℕ × ℕ) × List MatchedFeature) (he : e ∈ groupPairs ms) :
    e.2.length ≤ bestPairCount ms :=
  le_foldr_max _ _ (List.mem_map_of_mem (fun x => x.2.length) he)

/-- C4 (amended): when the best image pair has fewer than 50
correspondences the geometric stage fails — reporting the
insufficient-matches message when the total match count is below 50 and
the no-suitable-pair message otherwise — the pipeline returns the
fallback model, and that fallback is a unit cube with 24 vertices
(72 position floats) and 12 triangles (36 indices). -/
theorem bestPair_below_threshold_fallback
    (cv : CVEnv) (feats : List ImageFeatures) (intr : Matrix3)
    (ms : List MatchedFeature) (h : bestPairCount ms < 50) :
    (performSfMReconstruction cv feats ms intr).success = false
    ∧ (ms.length < 50 →
        (performSfMReconstruction cv feats ms intr).errorMessage =
          some insufficientMsg)
    ∧ (50 ≤ ms.length →
        (performSfMReconstruction cv feats ms intr).errorMessage =
          some noPairMsg)
    ∧ (∀ images, generateModel images ⟨cv, .ok feats, .ok ms, .ok intr⟩ =
        createFallbackModel images)
    ∧ createEmptyModel.vertices.length = 24 * 3
    ∧ createEmptyModel.faces.length = 12 * 3 := by
  have hnone : findBestInitialPair ms = none :=
    findBestInitialPair_eq_none ms
      (fun e he => lt_of_le_of_lt (entry_le_bestPairCount ms e he) h)
  have hfail : (performSfMReconstruction cv feats ms intr).success = false := by
    unfold performSfMReconstruction
    by_cases hlen : ms.length < 50
    · simp [hlen]
    · simp [hlen, hnone]
  refine ⟨hfail, ?_, ?_, ?_, by decide, by decide⟩
  · intro hlen
    simp [performSfMReconstruction, hlen]
  · intro hlen
    have hlen2 : ¬ ms.length < 50 := by omega
    simp [performSfMReconstruction, hlen2, hnone]
  · intro images
    simp [generateModel, hfail]

/-- A concrete match set with 50 matches in total, 49 on pair (0, 1) and
one on pair (0, 2): the best pair is below the threshold while the total
is not. -/
def c4Input : List MatchedFeature := List.replicate 49 mA ++ [mB]

set_option maxRecDepth 100000 in
/-- C4 counterexample: with 50 total matches but a best pair of only 49,
the stage reports the no-suitable-pair message, not the
insufficient-matches message; and the fallback cube has 72 position
floats (24 vertices), not the 24 floats of an 8-vertex cube. -/
theorem bestPair_below_threshold_claim_counterexample :
    bestPairCount c4Input < 50
    ∧ 50 ≤ c4Input.length
    ∧ (performSfMReconstruction cvEnvDegenerate [] c4Input
        Matrix3.identity).errorMessage = some noPairMsg
    ∧ noPairMsg ≠ insufficientMsg
    ∧ createEmptyModel.vertices.length = 72
    ∧ createEmptyModel.vertices.length ≠ 8 * 3 := by
  refine ⟨by decide, by decide, ?_, by decide, rfl, by decide⟩
  have hnone : findBestInitialPair c4Input = none := by decide
  have hlen : ¬ c4Input.length < 50 := by decide
  simp [performSfMReconstruction, hlen, hnone]

set_option maxRecDepth 100000 in
/-- C4 witness: the amended statement applied to the concrete 49-plus-1
match set. -/
theorem bestPair_below_threshold_fallback_witness :
    (performSfMReconstruction cvEnvDegenerate [] c4Input
      Matrix3.identity).success = false
    ∧ generateModel [] ⟨cvEnvDegenerate, .ok [], .ok c4Input,
        .ok Matrix3.identity⟩ = createFallbackModel [] := by
  have h := bestPair_below_threshold_fallback cvEnvDegenerate []
    Matrix3.identity c4Input (by decide)
  exact ⟨h.1, h.2.2.2.1 []⟩

section MatcherLemmas

theorem mem_loweGoodMatches (knn : List (List DMatch)) (m : DMatch)
    (hm : m ∈ loweGoodMatches knn) :
    ∃ m2 rest, (m :: m2 :: rest) ∈ knn
      ∧ m.distance < 0.75 * m2.distance ∧ m.distance < 40 := by
  induction knn with
  | nil => simp [loweGoodMatches] at hm
  | cons pair t ih =>
    rw [loweGoodMatches, List.foldr_cons] at hm
    match pair with
    | [] =>
      obtain ⟨m2, rest, h1, h2⟩ := ih hm
      exact ⟨m2, rest, List.mem_cons_of_mem _ h1, h2⟩
    | [m1] =>
      obtain ⟨m2, rest, h1, h2⟩ := ih hm
      exact ⟨m2, rest, List.mem_cons_of_mem _ h1, h2⟩
    | m1 :: m2 :: rest =>
      dsimp only at hm
      by_cases hc : m1.distance < 0.75 * m2.distance ∧ m1.distance < 40
      · rw [if_pos hc] at hm
        rcases List.mem_cons.1 hm with h | h
        · subst h
          exact ⟨m2, rest, List.mem_cons_self _ _, hc⟩
        · obtain ⟨m2', rest', h1, h2⟩ := ih h
          exact ⟨m2', rest', List.mem_cons_of_mem _ h1, h2⟩
      · rw [if_neg hc] at hm
        obtain ⟨m2', rest', h1, h2⟩ := ih hm
        exact ⟨m2', rest', List.mem_cons_of_mem _ h1, h2⟩

theorem mem_perPairFinal (good cc : List DMatch) (m : DMatch)
    (hm : m ∈ perPairFinal good cc) :
    m ∈ (if 20 < cc.length then cc else good) := by
  unfold perPairFinal at hm
  have h1 := List.take_subset 200 _ hm
  exact (List.mergeSort_perm _ _).mem_iff.1 h1

theorem mem_convertMatches (f1 f2 : List FeaturePoint) (i j : ℕ)
    (best : List DMatch) (mf : MatchedFeature)
    (hmf : mf ∈ convertMatches f1 f2 i j best) :
    ∃ m ∈ best, mf.queryIdx = m.queryIdx ∧ mf.trainIdx = m.trainIdx
      ∧ mf.confidence = 1 / (1 + m.distance) := by
  unfold convertMatches at hmf
  obtain ⟨m, hm, hsome⟩ := List.mem_filterMap.1 hmf
  refine ⟨m, hm, ?_⟩
  cases h1 : f1[m.queryIdx]? with
  | none => rw [h1] at hsome; cases h2 : f2[m.trainIdx]? <;>
      rw [h2] at hsome <;> simp at hsome
  | some p1 =>
    cases h2 : f2[m.trainIdx]? with
    | none => rw [h1, h2] at hsome; simp at hsome
    | some p2 =>
      rw [h1, h2] at hsome
      have := Option.some.inj hsome
      subst this
      exact ⟨rfl, rfl, rfl⟩

theorem mem_matchPair (f1 f2 : List FeaturePoint) (i j : ℕ)
    (knnF knnB : List (List DMatch)) (mf : MatchedFeature)
    (h : mf ∈ matchPair f1 f2 i j knnF knnB) :
    ∃ m ∈ loweGoodMatches knnF,
      mf.queryIdx = m.queryIdx ∧ mf.trainIdx = m.trainIdx
      ∧ mf.confidence = 1 / (1 + m.distance) := by
  unfold matchPair at h
  obtain ⟨m, hm, hfields⟩ := mem_convertMatches _ _ _ _ _ _ h
  have hfin := mem_perPairFinal _ _ _ hm
  refine ⟨m, ?_, hfields⟩
  by_cases hc : 20 <
      (crossCheckMatches (loweGoodMatches knnF) knnB).length
  · rw [if_pos hc] at hfin
    unfold crossCheckMatches at hfin
    exact List.mem_of_mem_filter hfin
  · rw [if_neg hc] at hfin
    exact hfin

end MatcherLemmas

/-- C3: every correspondence the feature matcher returns stems from a
knnMatch entry whose best candidate beats 0.75 times the second-best
distance and the absolute cutoff of 40; the correspondence inherits the
candidate indices and carries confidence 1 / (1 + distance). -/
theorem featureMatcher_lowe_and_cutoff (feats : List ImageFeatures)
    (knn : ℕ → ℕ → List (List DMatch)) :
    ∀ mf ∈ robustFeatureMatching feats knn,
      ∃ i j m m2 rest, (m :: m2 :: rest) ∈ knn i j
        ∧ mf.queryIdx = m.queryIdx ∧ mf.trainIdx = m.trainIdx
        ∧ mf.confidence = 1 / (1 + m.distance)
        ∧ m.distance < 0.75 * m2.distance
        ∧ m.distance < 40 := by
  intro mf hmf
  unfold robustFeatureMatching at hmf
  obtain ⟨p, hp, hmf2⟩ := List.mem_flatMap.1 hmf
  obtain ⟨q, hq, hmf3⟩ := List.mem_flatMap.1 hmf2
  obtain ⟨m, hm, hq2, ht, hconf⟩ := mem_matchPair _ _ _ _ _ _ _ hmf3
  obtain ⟨m2, rest, hpair, hratio, hcut⟩ := mem_loweGoodMatches _ _ hm
  exact ⟨p.1, q.1, m, m2, rest, hpair, hq2, ht, hconf, hratio, hcut⟩

/-- A concrete feature point for matcher witnesses. -/
def ptW : FeaturePoint := ⟨0, 0, 0⟩

/-- A concrete best candidate at distance 10. -/
def dW1 : DMatch := ⟨0, 0, 10⟩

/-- A concrete second candidate at distance 20. -/
def dW2 : DMatch := ⟨0, 0, 20⟩

/-- Concrete feature sets of two images with one keypoint each. -/
def featsW : List ImageFeatures := [⟨[ptW], 0⟩, ⟨[ptW], 1⟩]

/-- A concrete knnMatch table with one two-candidate entry per pair. -/
def knnW : ℕ → ℕ → List (List DMatch) := fun _ _ => [[dW1, dW2]]

/-- The correspondence the matcher produces on the concrete inputs. -/
def mfW : MatchedFeature := ⟨ptW, ptW, 0, 1, 1 / (1 + 10), 0, 0⟩

theorem loweGoodMatches_knnW : loweGoodMatches [[dW1, dW2]] = [dW1] := by
  unfold loweGoodMatches
  rw [List.foldr_cons, List.foldr_nil]
  dsimp only [dW1, dW2]
  rw [if_pos (by norm_num)]

theorem matchPair_knnW :
    matchPair [ptW] [ptW] 0 1 (knnW 0 1) (knnW 1 0) = [mfW] := by
  show matchPair [ptW] [ptW] 0 1 [[dW1, dW2]] [[dW1, dW2]] = [mfW]
  unfold matchPair
  rw [loweGoodMatches_knnW]
  show convertMatches [ptW] [ptW] 0 1
    (perPairFinal [dW1] (crossCheckMatches [dW1] [[dW1, dW2]])) = [mfW]
  rw [show crossCheckMatches [dW1] [[dW1, dW2]] = [dW1] from by decide]
  unfold perPairFinal sortByDistance
  rw [if_neg (by decide)]
  simp only [List.mergeSort_singleton]
  rw [show List.take 200 [dW1] = [dW1] from rfl]
  simp [convertMatches, mfW, dW1, ptW]

theorem mfW_mem : mfW ∈ robustFeatureMatching featsW knnW := by
  unfold robustFeatureMatching
  refine List.mem_flatMap.2 ⟨(0, ⟨[ptW], 0⟩), by decide, ?_⟩
  refine List.mem_flatMap.2 ⟨(1, ⟨[ptW], 1⟩), by decide, ?_⟩
  show mfW ∈ matchPair [ptW] [ptW] 0 1 (knnW 0 1) (knnW 1 0)
  rw [matchPair_knnW]
  exact List.mem_singleton_self _

/-- C3 witness: the matcher property instantiated on the concrete
two-image run. -/
theorem featureMatcher_lowe_and_cutoff_witness :
    ∃ i j m m2 rest, (m :: m2 :: rest) ∈ knnW i j
      ∧ mfW.queryIdx = m.queryIdx ∧ mfW.trainIdx = m.trainIdx
      ∧ mfW.confidence = 1 / (1 + m.distance)
      ∧ m.distance < 0.75 * m2.distance
      ∧ m.distance < 40 :=
  featureMatcher_lowe_and_cutoff featsW knnW mfW mfW_mem

/-- C8: per image pair, the cross-checked matches replace the
one-directional ratio-test matches exactly when more than 20 survive;
the chosen set is sorted by ascending descriptor distance, truncated to
at most 200 entries, and every kept match comes from the chosen set. -/
theorem matcher_crosscheck_sort_truncate (good cc : List DMatch) :
    (20 < cc.length → perPairFinal good cc = (sortByDistance cc).take 200)
    ∧ (cc.length ≤ 20 →
        perPairFinal good cc = (sortByDistance good).take 200)
    ∧ (perPairFinal good cc).length ≤ 200
    ∧ (perPairFinal good cc).Pairwise (fun a b => a.distance ≤ b.distance)
    ∧ ∀ m ∈ perPairFinal good cc,
        m ∈ (if 20 < cc.length then cc else good) := by
  refine ⟨?_, ?_, ?_, ?_, fun m hm => mem_perPairFinal good cc m hm⟩
  · intro h
    unfold perPairFinal
    rw [if_pos h]
  · intro h
    unfold perPairFinal
    rw [if_neg (by omega)]
  · unfold perPairFinal
    rw [List.length_take]
    exact min_le_left _ _
  · unfold perPairFinal
    apply List.Pairwise.sublist (List.take_sublist _ _)
    have htrans : ∀ a b c : DMatch,
        decide (a.distance ≤ b.distance) = true →
        decide (b.distance ≤ c.distance) = true →
        decide (a.distance ≤ c.distance) = true := by
      intro a b c hab hbc
      simp only [decide_eq_true_eq] at *
      exact le_trans hab hbc
    have htotal : ∀ a b : DMatch,
        (decide (a.distance ≤ b.distance) ||
          decide (b.distance ≤ a.distance)) = true := by
      intro a b
      simpa using le_total a.distance b.distance
    have hs := List.sorted_mergeSort htrans htotal
      (if 20 < cc.length then cc else good)
    exact hs.imp (fun h => by simpa using h)

/-- A concrete 21-element cross-checked set. -/
def cc21 : List DMatch := List.replicate 21 dW1

/-- C8 witness: with 21 surviving cross-checked matches they replace the
one-directional set. -/
theorem matcher_crosscheck_sort_truncate_witness :
    perPairFinal [] cc21 = (sortByDistance cc21).take 200 :=
  (matcher_crosscheck_sort_truncate [] cc21).1 (by decide)

theorem calculateReprojectionError_nonneg (p : Vec3) (m : MatchedFeature)
    (c1 c2 : CameraPose) (intr : Matrix3) :
    0 ≤ calculateReprojectionError p m c1 c2 intr := by
  unfold calculateReprojectionError
  positivity

/-- C2: every point accepted by the triangulation stage has positive
depth in both camera frames, reprojection error strictly below 2,
confidence exactly 1 minus half the error — hence in the unit interval —
and its stored error is the average reprojection distance of one of the
input matches. -/
theorem triangulation_accepted_point_invariants (env : CVEnv)
    (ms : List MatchedFeature) (camera1 camera2 : CameraPose)
    (intrinsics : Matrix3) (mask : List Bool) (K R : Mat3)
    (t : Fin 3 → ℝ) :
    ∀ p ∈ triangulatePointsOpenCV env ms camera1 camera2 intrinsics
        mask K R t,
      0 < p.position.z
      ∧ 0 < ((p.position.applyMatrix3 camera2.rotation).add
          camera2.translation).z
      ∧ p.reprojectionError < 2
      ∧ p.confidence = 1 - p.reprojectionError / 2
      ∧ 0 ≤ p.confidence ∧ p.confidence ≤ 1
      ∧ ∃ m ∈ ms, p.reprojectionError =
          calculateReprojectionError p.position m camera1 camera2
            intrinsics := by
  intro p hp
  simp only [triangulatePointsOpenCV] at hp
  split at hp
  · simp at hp
  · obtain ⟨e, he, hsome⟩ := List.mem_filterMap.1 hp
    obtain ⟨i, ⟨⟨X, Y, Z, W⟩, m⟩⟩ := e
    dsimp only at hsome
    split_ifs at hsome with h1 h2 h3
    have hpoint := Option.some.inj hsome
    subst hpoint
    have hm : m ∈ ms := by
      obtain ⟨hlt, hx⟩ := List.mem_enum he
      have hmem := List.getElem_mem hlt
      rw [← hx] at hmem
      have hm2 := (List.of_mem_zip hmem).2
      obtain ⟨pr, hpr, hpr2⟩ := List.mem_filterMap.1 hm2
      have hb : pr.2 = true := by
        by_contra hb
        simp [hb] at hpr2
      rw [hb] at hpr2
      simp at hpr2
      subst hpr2
      exact (List.of_mem_zip hpr).1
    have herr_nonneg : 0 ≤ calculateReprojectionError ⟨X / W, Y / W, Z / W⟩
        m camera1 camera2 intrinsics :=
      calculateReprojectionError_nonneg _ _ _ _ _
    refine ⟨h2.1, h2.2, h3, rfl, ?_, ?_, ⟨m, hm, rfl⟩⟩
    · dsimp only
      linarith
    · dsimp only
      linarith

section TriangulationWitness

theorem identity_elem_0 : Matrix3.identity.elements 0 = 1 := rfl

theorem identity_elem_1 : Matrix3.identity.elements 1 = 0 := rfl

theorem identity_elem_2 : Matrix3.identity.elements 2 = 0 := rfl

theorem identity_elem_3 : Matrix3.identity.elements 3 = 0 := rfl

theorem identity_elem_4 : Matrix3.identity.elements 4 = 1 := rfl

theorem identity_elem_5 : Matrix3.identity.elements 5 = 0 := rfl

theorem identity_elem_6 : Matrix3.identity.elements 6 = 0 := rfl

theorem identity_elem_7 : Matrix3.identity.elements 7 = 0 := rfl

theorem identity_elem_8 : Matrix3.identity.elements 8 = 1 := rfl

/-- The identity pose at the world origin. -/
noncomputable def poseIdW : CameraPose :=
  { position := ⟨0, 0, 0⟩, rotation := Matrix3.identity,
    translation := ⟨0, 0, 0⟩, intrinsicMatrix := Matrix3.identity,
    isValid := true, reprojectionError := 0 }

/-- A five-entry all-inlier mask. -/
def maskW : List Bool := List.replicate 5 true

/-- A concrete environment whose triangulation returns the single
homogeneous point (0, 0, 1, 1). -/
noncomputable def envC2 : CVEnv :=
  ⟨fun _ _ _ _ => ⟨1⟩, fun _ _ _ _ => ⟨50, fun _ => 0, fun _ => 0, []⟩,
   fun _ _ _ _ => [((0 : ℝ), (0 : ℝ), (1 : ℝ), (1 : ℝ))], fun _ => 0⟩

/-- The reprojection error of the concrete accepted point. -/
noncomputable def errW : ℝ :=
  calculateReprojectionError ⟨0 / 1, 0 / 1, 1 / 1⟩ mA poseIdW poseIdW
    Matrix3.identity

theorem errW_eq : errW = 0 := by
  have h1 : (⟨0 / 1, 0 / 1, 1 / 1⟩ : Vec3) = ⟨0, 0, 1⟩ := by
    norm_num [Vec3.mk.injEq]
  unfold errW
  rw [h1]
  unfold calculateReprojectionError projectPoint
  simp only [poseIdW, mA, Vec3.sub, Vec3.applyMatrix3,
    identity_elem_0, identity_elem_1, identity_elem_2, identity_elem_3,
    identity_elem_4, identity_elem_5, identity_elem_6, identity_elem_7,
    identity_elem_8]
  norm_num [Real.sqrt_zero]

/-- The point the triangulation stage accepts on the concrete run. -/
noncomputable def pW : Point3D :=
  { position := ⟨0 / 1, 0 / 1, 1 / 1⟩,
    color := ⟨0.7 + 0 * 0.3, 0.7 + 0 * 0.3, 0.9⟩,
    confidence := 1 - errW / 2,
    reprojectionError := errW,
    viewCount := 2 }

theorem pW_mem : pW ∈ triangulatePointsOpenCV envC2 (List.replicate 5 mA)
    poseIdW poseIdW Matrix3.identity maskW mat3Eye mat3Eye vec3Zeros := by
  simp only [triangulatePointsOpenCV]
  rw [if_neg (by decide)]
  rw [show ∀ a b c d, envC2.triangulatePoints a b c d =
      [((0 : ℝ), (0 : ℝ), (1 : ℝ), (1 : ℝ))] from fun _ _ _ _ => rfl]
  rw [show List.filterMap (fun p => if p.2 = true then some p.1 else none)
      ((List.replicate 5 mA).zip maskW) = List.replicate 5 mA from by decide]
  rw [show List.zip [((0 : ℝ), (0 : ℝ), (1 : ℝ), (1 : ℝ))]
      (List.replicate 5 mA) =
      [(((0 : ℝ), (0 : ℝ), (1 : ℝ), (1 : ℝ)), mA)] from rfl]
  rw [show List.enum [(((0 : ℝ), (0 : ℝ), (1 : ℝ), (1 : ℝ)), mA)] =
      [(0, (((0 : ℝ), (0 : ℝ), (1 : ℝ), (1 : ℝ)), mA))] from rfl]
  rw [List.filterMap_cons]
  dsimp only
  rw [if_pos (by norm_num)]
  rw [if_pos ?hdepth]
  case hdepth =>
    constructor
    · norm_num
    · simp only [poseIdW, Vec3.applyMatrix3, Vec3.add,
        identity_elem_0, identity_elem_1, identity_elem_2,
        identity_elem_3, identity_elem_4, identity_elem_5,
        identity_elem_6, identity_elem_7, identity_elem_8]
      norm_num
  rw [if_pos ?herr]
  case herr =>
    rw [show calculateReprojectionError ⟨0 / 1, 0 / 1, 1 / 1⟩ mA poseIdW
        poseIdW Matrix3.identity = errW from rfl, errW_eq]
    norm_num
  rw [List.filterMap_nil]
  exact List.mem_singleton_self _

/-- C2 witness: the per-point invariants instantiated on the concrete
accepted point. -/
theorem triangulation_accepted_point_invariants_witness :
    0 < pW.position.z
    ∧ 0 < ((pW.position.applyMatrix3 poseIdW.rotation).add
        poseIdW.translation).z
    ∧ pW.reprojectionError < 2
    ∧ pW.confidence = 1 - pW.reprojectionError / 2
    ∧ 0 ≤ pW.confidence ∧ pW.confidence ≤ 1
    ∧ ∃ m ∈ List.replicate 5 mA, pW.reprojectionError =
        calculateReprojectionError pW.position m poseIdW poseIdW
          Matrix3.identity :=
  triangulation_accepted_point_invariants envC2 (List.replicate 5 mA)
    poseIdW poseIdW Matrix3.identity maskW mat3Eye mat3Eye vec3Zeros
    pW pW_mem

end TriangulationWitness

section CameraAssembly

theorem fromArray_elements (a : Fin 9 → ℝ) :
    (Matrix3.fromArray a).elements = a := rfl

theorem transpose_elem_0 (m : Matrix3) :
    m.transpose.elements 0 = m.elements 0 := rfl

theorem transpose_elem_1 (m : Matrix3) :
    m.transpose.elements 1 = m.elements 3 := rfl

theorem transpose_elem_2 (m : Matrix3) :
    m.transpose.elements 2 = m.elements 6 := rfl

theorem transpose_elem_3 (m : Matrix3) :
    m.transpose.elements 3 = m.elements 1 := rfl

theorem transpose_elem_4 (m : Matrix3) :
    m.transpose.elements 4 = m.elements 4 := rfl

theorem transpose_elem_5 (m : Matrix3) :
    m.transpose.elements 5 = m.elements 7 := rfl

theorem transpose_elem_6 (m : Matrix3) :
    m.transpose.elements 6 = m.elements 2 := rfl

theorem transpose_elem_7 (m : Matrix3) :
    m.transpose.elements 7 = m.elements 5 := rfl

theorem transpose_elem_8 (m : Matrix3) :
    m.transpose.elements 8 = m.elements 8 := rfl

/-- Row-major OpenCV data of the 90-degree rotation about the z axis:
rows (0, -1, 0), (1, 0, 0), (0, 0, 1). -/
noncomputable def rotZ90Data : Fin 9 → ℝ := fun i =>
  match i with
  | 0 => 0 | 1 => -1 | 2 => 0
  | 3 => 1 | 4 => 0 | 5 => 0
  | 6 => 0 | 7 => 0 | 8 => 1

/-- A unit translation along x. -/
noncomputable def tDataC5 : Fin 3 → ℝ := fun i =>
  match i with
  | 0 => 1 | 1 => 0 | 2 => 0

theorem rz_0 : rotZ90Data 0 = 0 := rfl

theorem rz_1 : rotZ90Data 1 = -1 := rfl

theorem rz_2 : rotZ90Data 2 = 0 := rfl

theorem rz_3 : rotZ90Data 3 = 1 := rfl

theorem rz_4 : rotZ90Data 4 = 0 := rfl

theorem rz_5 : rotZ90Data 5 = 0 := rfl

theorem rz_6 : rotZ90Data 6 = 0 := rfl

theorem rz_7 : rotZ90Data 7 = 0 := rfl

theorem rz_8 : rotZ90Data 8 = 1 := rfl

theorem tD_0 : tDataC5 0 = 1 := rfl

theorem tD_1 : tDataC5 1 = 0 := rfl

theorem tD_2 : tDataC5 2 = 0 := rfl

/-- Modelled from the spec: the documented camera-center formula of the
source comment, position = minus the transpose of the recovered rotation
(read row-major, as OpenCV stores it) applied to the recovered
translation. -/
noncomputable def specCamera2Position (rot : Fin 9 → ℝ)
    (t : Fin 3 → ℝ) : Vec3 :=
  ⟨-(rot 0 * t 0 + rot 3 * t 1 + rot 6 * t 2),
   -(rot 1 * t 0 + rot 4 * t 1 + rot 7 * t 2),
   -(rot 2 * t 0 + rot 5 * t 1 + rot 8 * t 2)⟩

/-- An environment recovering the concrete rotation and translation. -/
noncomputable def envC5 : CVEnv :=
  ⟨fun _ _ _ _ => ⟨1⟩, fun _ _ _ _ => ⟨50, rotZ90Data, tDataC5, []⟩,
   fun _ _ _ _ => [], fun _ => 0⟩

/-- C5: at the recovered rotation by 90 degrees about z and unit x
translation, the code assembles camera 2 at position (0, -1, 0), while
the specified (and source-commented) formula, minus R transpose times t,
yields (0, 1, 0): the two disagree, because Matrix3.fromArray reads the
row-major OpenCV buffer in column-major order. -/
theorem camera2_position_code_bug :
    ((performTwoViewReconstruction envC5 [] Matrix3.identity).cameras.map
      CameraPose.position)[1]? = some ⟨0, -1, 0⟩
    ∧ specCamera2Position rotZ90Data tDataC5 = ⟨0, 1, 0⟩
    ∧ (⟨0, -1, 0⟩ : Vec3) ≠ ⟨0, 1, 0⟩ := by
  refine ⟨?_, ?_, ?_⟩
  · simp only [performTwoViewReconstruction]
    rw [if_neg (by decide), if_neg (by decide)]
    rw [show ∀ a b c d, envC5.recoverPose a b c d =
      ⟨50, rotZ90Data, tDataC5, []⟩ from fun _ _ _ _ => rfl]
    simp only [List.map_cons, List.map_nil, List.getElem?_cons_succ,
      List.getElem?_cons_zero, Option.some.injEq]
    simp only [Vec3.neg, Vec3.applyMatrix3, transpose_elem_0,
      transpose_elem_1, transpose_elem_2, transpose_elem_3,
      transpose_elem_4, transpose_elem_5, transpose_elem_6,
      transpose_elem_7, transpose_elem_8, fromArray_elements,
      rz_0, rz_1, rz_2, rz_3, rz_4, rz_5, rz_6, rz_7, rz_8,
      tD_0, tD_1, tD_2, Vec3.mk.injEq]
    norm_num
  · simp only [specCamera2Position, rz_0, rz_1, rz_2, rz_3, rz_4, rz_5,
      rz_6, rz_7, rz_8, tD_0, tD_1, tD_2, Vec3.mk.injEq]
    norm_num
  · intro h
    have := congrArg Vec3.y h
    norm_num at this

end CameraAssembly

theorem length_flatMap_triple {α : Type} (l : List α) (f g h : α → ℝ) :
    (l.flatMap (fun p => [f p, g p, h p])).length = 3 * l.length := by
  induction l with
  | nil => simp
  | cons a t ih =>
    simp only [List.flatMap_cons, List.length_append, ih, List.length_cons,
      List.length_nil]
    ring

/-- C10 counterexample: a pipeline run (here one that falls back after a
failed extraction stage) hands the caller a Generated3DModel whose
source image count is absent. -/
theorem model_sourceImageCount_missing_counterexample :
    (generateModel [⟨"img", true⟩]
      ⟨cvEnvDegenerate, .error "decode", .ok [], .ok Matrix3.identity⟩
      ).sourceImageCount = none
    ∧ (generateMeshFromPointCloud [pW]).sourceImageCount = none :=
  ⟨rfl, rfl⟩

/-- C10 (amended): models produced by the simplified path carry the
source image count together with the stride-3 vertex and parallel color
buffers and the face/index buffer; the OpenCV pipeline path carries the
same buffers (with an empty face buffer) but leaves the optional source
image count unset. -/
theorem model_buffers_and_sourceImageCount :
    (∀ pts n, (generateMesh pts n).sourceImageCount = some n)
    ∧ (∀ pts n, (generateMesh pts n).vertices.length = 3 * pts.length)
    ∧ (∀ pts n, (generateMesh pts n).geometry.color.length = 3 * pts.length)
    ∧ (∀ pts n, (generateMesh pts n).faces = (generateMesh pts n).geometry.index)
    ∧ (∀ pts, (generateMeshFromPointCloud pts).sourceImageCount = none)
    ∧ (∀ pts, pts ≠ [] →
        (generateMeshFromPointCloud pts).vertices.length = 3 * pts.length
        ∧ (generateMeshFromPointCloud pts).geometry.color.length =
            3 * pts.length
        ∧ (generateMeshFromPointCloud pts).faces = []) := by
  refine ⟨fun pts n => rfl, ?_, ?_, fun pts n => rfl, ?_, ?_⟩
  · intro pts n
    simp only [generateMesh]
    exact length_flatMap_triple pts _ _ _
  · intro pts n
    simp only [generateMesh]
    exact length_flatMap_triple pts _ _ _
  · intro pts
    unfold generateMeshFromPointCloud
    split
    · rfl
    · rfl
  · intro pts hne
    have hlen : ¬ pts.length = 0 := by
      have := List.length_pos.2 hne
      omega
    unfold generateMeshFromPointCloud
    rw [if_neg hlen]
    exact ⟨length_flatMap_triple pts _ _ _,
      length_flatMap_triple pts _ _ _, rfl⟩

/-- C10 witness: the amended statement evaluated on concrete inputs. -/
theorem model_buffers_and_sourceImageCount_witness :
    (generateMesh [] 7).sourceImageCount = some 7
    ∧ ((generateMeshFromPointCloud [pW]).vertices.length = 3 * [pW].length
        ∧ (generateMeshFromPointCloud [pW]).geometry.color.length =
            3 * [pW].length
        ∧ (generateMeshFromPointCloud [pW]).faces = []) :=
  ⟨(model_buffers_and_sourceImageCount).1 [] 7,
   (model_buffers_and_sourceImageCount).2.2.2.2.2 [pW] (by simp)⟩
